import Mathlib

/-
Verification of the chat-relay bot (src/app.py): a Telegram bot that relays
each user message to a hosted assistant API, polls the resulting run to a
terminal status, and sends the newest thread message back as the reply.

Shallow embedding: external calls (thread creation, message append, run
creation, run retrieval, message listing, the typing indicator) are modelled
as `Except String` results supplied by an `Env` record describing the remote
behavior observed during one handler invocation; the poll loop takes fuel
bounding the number of retrieve calls, with `none` meaning the loop never
exited within that fuel.
-/

namespace Spartaco

/-- Run object as observed by the handler: `run.id`, `run.status`, and the
`run.last_error.message` text used in the failed-run log line. -/
structure RunObj where
  id : String
  status : String
  lastErrorMsg : String
deriving DecidableEq

/-- One content block of a thread message: models `content[i].text.value`. -/
structure MsgContent where
  textValue : String
deriving DecidableEq

/-- One entry of the thread message list returned by
`client.beta.threads.messages.list` (newest first). -/
structure ThreadMsg where
  role : String
  content : List MsgContent
deriving DecidableEq

/-- Remote behavior for one handler invocation. Each field is the result the
corresponding external call would produce; `retrieveRun n` is the result of
the (n+1)-th `runs.retrieve` call inside the poll loop. -/
structure Env where
  createThread : Except String String
  sendChatAction : Except String Unit
  appendMessage : String → Except String Unit
  createRun : Except String RunObj
  retrieveRun : Nat → Except String RunObj
  listMessages : Except String (List ThreadMsg)

/-- The Session Registry `user_threads`: chat id to remote thread id. -/
def Registry : Type := Int → Option String

/-- User-visible outcome of one handler invocation: either a reply text was
sent with `reply_text` / `reply_html`, or an exception escaped the handler
(possible only from the typing-indicator call, which sits outside the try
block) and nothing was sent. -/
inductive Outcome where
  | sent (text : String)
  | escaped (detail : String)
deriving DecidableEq

/-- Which external calls the handler performed. `retrievedRun` records
whether the poll loop performed at least one `runs.retrieve` call. -/
structure Calls where
  createThread : Bool
  sendChatAction : Bool
  appendMessage : Bool
  createRun : Bool
  retrievedRun : Bool
  listMessages : Bool
deriving DecidableEq

/-- No external call performed. -/
def noCalls : Calls :=
  ⟨false, false, false, false, false, false⟩

/-- Final state of one handler invocation: the registry afterwards, the
user-visible outcome, and the external calls performed. -/
structure HandlerResult where
  registry : Registry
  outcome : Outcome
  calls : Calls

/-- Greeting sent by `start` on success (`reply_html` of the f-string built
from `user.mention_html()`). -/
def greetingMsg (mention : String) : String :=
  "Ciao " ++ mention ++ "! 👋\n\nSono pronto a parlare con te. Scrivimi qualcosa."

/-- Fixed apology sent by `start` when thread creation raises. -/
def bootstrapApologyMsg : String :=
  "Scusa, non riesco a inizializzare la nostra conversazione. Riprova più tardi."

/-- Fixed generic failure message sent by the `except` branch of
`handle_message`. -/
def genericFailureMsg : String :=
  "Ops, qualcosa è andato storto. Ho informato i miei creatori!"

/-- The `start` command handler: create a remote thread; on success store its
id under the chat id (overwriting any prior value) and send the greeting; on
exception leave the registry untouched and send the fixed apology. -/
def start (createThread : Except String String) (registry : Registry)
    (chat_id : Int) (mention : String) : Registry × Outcome :=
  match createThread with
  | .ok threadId =>
      (fun c => if c = chat_id then some threadId else registry c,
       .sent (greetingMsg mention))
  | .error _ =>
      (registry, .sent bootstrapApologyMsg)

/-- The statuses on which the while loop keeps polling:
`run.status in ["queued", "in_progress"]`. -/
def pollStatuses : List String := ["queued", "in_progress"]

/-- The poll loop `while run.status in ["queued", "in_progress"]`: starting
from run object `r`, with retrieve results indexed from `k`, perform up to
`fuel` retrieve calls. Returns `none` when the loop is still going after
`fuel` retrieves, `some (.error e)` when a retrieve call raised, and
`some (.ok rf)` when the loop exited with final run object `rf`. -/
def pollLoop (retrieveRun : Nat → Except String RunObj) :
    RunObj → Nat → Nat → Option (Except String RunObj)
  | r, _, 0 =>
      if r.status ∈ pollStatuses then none else some (.ok r)
  | r, k, fuel + 1 =>
      if r.status ∈ pollStatuses then
        match retrieveRun k with
        | .error e => some (.error e)
        | .ok r2 => pollLoop retrieveRun r2 (k + 1) fuel
      else some (.ok r)

/-- Reply extraction `messages.data[0].content[0].text.value`; `none` models
the IndexError raised on an empty list or empty content (caught by the
handler's except branch). -/
def extractText (msgs : List ThreadMsg) : Option String :=
  match msgs with
  | [] => none
  | m :: _ =>
      match m.content with
      | [] => none
      | c :: _ => some c.textValue

/-- The text-message handler `handle_message`. If the chat id has no session,
auto-invoke `start` and return. Otherwise send the typing indicator (outside
the try block: an exception there escapes), then inside the try block append
the message, create a run, poll it, raise on status `failed`, list the
thread messages and reply with the newest text; any exception inside the try
block yields the fixed generic failure message. `none` models the poll loop
never exiting within `fuel` retrieves. -/
def handle_message (env : Env) (fuel : Nat) (registry : Registry)
    (chat_id : Int) (user_text : String) (mention : String) :
    Option HandlerResult :=
  match registry chat_id with
  | none =>
      match start env.createThread registry chat_id mention with
      | (reg2, out) => some ⟨reg2, out, { noCalls with createThread := true }⟩
  | some _ =>
      match env.sendChatAction with
      | .error e =>
          some ⟨registry, .escaped e, { noCalls with sendChatAction := true }⟩
      | .ok _ =>
          match env.appendMessage user_text with
          | .error _ =>
              some ⟨registry, .sent genericFailureMsg,
                ⟨false, true, true, false, false, false⟩⟩
          | .ok _ =>
              match env.createRun with
              | .error _ =>
                  some ⟨registry, .sent genericFailureMsg,
                    ⟨false, true, true, true, false, false⟩⟩
              | .ok r0 =>
                  match pollLoop env.retrieveRun r0 0 fuel with
                  | none => none
                  | some (.error _) =>
                      some ⟨registry, .sent genericFailureMsg,
                        ⟨false, true, true, true, true, false⟩⟩
                  | some (.ok rf) =>
                      if rf.status = "failed" then
                        some ⟨registry, .sent genericFailureMsg,
                          ⟨false, true, true, true,
                            decide (r0.status ∈ pollStatuses), false⟩⟩
                      else
                        match env.listMessages with
                        | .error _ =>
                            some ⟨registry, .sent genericFailureMsg,
                              ⟨false, true, true, true,
                                decide (r0.status ∈ pollStatuses), true⟩⟩
                        | .ok msgs =>
                            match extractText msgs with
                            | none =>
                                some ⟨registry, .sent genericFailureMsg,
                                  ⟨false, true, true, true,
                                    decide (r0.status ∈ pollStatuses), true⟩⟩
                            | some t =>
                                some ⟨registry, .sent t,
                                  ⟨false, true, true, true,
                                    decide (r0.status ∈ pollStatuses), true⟩⟩

/-- Python truthiness of an environment value: `None` and the empty string
are falsy, every other string is truthy. -/
def truthy : Option String → Bool
  | none => false
  | some s => !(s == "")

/-- The startup error report: the `logging.critical` line and the message of
the raised ValueError. Both are fixed strings whatever subset of the three
values is missing. -/
def configErrorReport : String × String :=
  ("ERRORE CRITICO: Mancano una o più variabili d\x27ambiente (TELEGRAM_TOKEN, OPENAI_API_KEY, ASSISTANT_ID)",
   "ERRORE CRITICO: Mancano una o più variabili d\x27ambiente.")

/-- The module-level configuration check: if any of the three values fails
Python truthiness, log and raise with the fixed report; otherwise proceed. -/
def startupCheck (telegramToken openaiKey assistantId : Option String) :
    Except (String × String) Unit :=
  if truthy telegramToken && truthy openaiKey && truthy assistantId then
    .ok ()
  else
    .error configErrorReport

/-- The sequence of statuses the poll loop observes when every retrieve call
succeeds: position 0 is the initial run object, position n+1 is the result
of retrieve call `k + n`. -/
def statusSeqFrom (r : Nat → RunObj) (r0 : RunObj) (k : Nat) : Nat → String
  | 0 => r0.status
  | n + 1 => (r (k + n)).status

/-- Registry mapping chat id 42 to an existing session thread. -/
def regC1 : Registry := fun c => if c = 42 then some "thread_abc" else none

/-- Remote behavior where the run is created already in status cancelled. -/
def envC1 : Env where
  createThread := .ok "thread_new"
  sendChatAction := .ok ()
  appendMessage := fun _ => .ok ()
  createRun := .ok ⟨"run_1", "cancelled", ""⟩
  retrieveRun := fun _ => .ok ⟨"run_1", "cancelled", ""⟩
  listMessages := .ok [⟨"assistant", [⟨"Hi!"⟩]⟩]

/-- Registry mapping chat id 42 to an existing session thread. -/
def regC2 : Registry := fun c => if c = 42 then some "thread_abc" else none

/-- Remote behavior for the scenario of the spec: run created queued, then
polled in_progress, then completed; the thread lists the assistant reply
newest first. -/
def envC2 : Env where
  createThread := .ok "thread_new"
  sendChatAction := .ok ()
  appendMessage := fun _ => .ok ()
  createRun := .ok ⟨"run_1", "queued", ""⟩
  retrieveRun := fun n =>
    if n = 0 then .ok ⟨"run_1", "in_progress", ""⟩
    else .ok ⟨"run_1", "completed", ""⟩
  listMessages := .ok [⟨"assistant", [⟨"Hi Ada!"⟩]⟩, ⟨"user", [⟨"hello"⟩]⟩]

/-- Registry mapping chat id 42 to an existing session thread. -/
def regC3 : Registry := fun c => if c = 42 then some "thread_abc" else none

/-- Remote behavior where the run is created already in status failed. -/
def envC3 : Env where
  createThread := .ok "thread_new"
  sendChatAction := .ok ()
  appendMessage := fun _ => .ok ()
  createRun := .ok ⟨"run_1", "failed", "remote model error"⟩
  retrieveRun := fun _ => .ok ⟨"run_1", "failed", "remote model error"⟩
  listMessages := .ok [⟨"assistant", [⟨"Hi!"⟩]⟩]

/-- Remote behavior for a first message: thread creation succeeds; the relay
calls would all raise if they were reached. -/
def envC6 : Env where
  createThread := .ok "thread_new"
  sendChatAction := .error "not reached"
  appendMessage := fun _ => .error "not reached"
  createRun := .error "not reached"
  retrieveRun := fun _ => .error "not reached"
  listMessages := .error "not reached"

/-- Registry mapping chat id 42 to an existing session thread. -/
def regC9 : Registry := fun c => if c = 42 then some "thread_abc" else none

/-- Remote behavior where sending the typing indicator raises and everything
else would succeed. -/
def envC9 : Env where
  createThread := .ok "thread_new"
  sendChatAction := .error "boom"
  appendMessage := fun _ => .ok ()
  createRun := .ok ⟨"run_1", "completed", ""⟩
  retrieveRun := fun _ => .ok ⟨"run_1", "completed", ""⟩
  listMessages := .ok [⟨"assistant", [⟨"Hi!"⟩]⟩]

/-- Registry mapping chat id 42 to an existing session thread. -/
def regC10 : Registry := fun c => if c = 42 then some "thread_abc" else none

/-- Remote behavior where everything succeeds and the run completes at once. -/
def envC10 : Env where
  createThread := .ok "thread_new"
  sendChatAction := .ok ()
  appendMessage := fun _ => .ok ()
  createRun := .ok ⟨"run_1", "completed", ""⟩
  retrieveRun := fun _ => .ok ⟨"run_1", "completed", ""⟩
  listMessages := .ok [⟨"assistant", [⟨"Hi Ada!"⟩]⟩, ⟨"user", [⟨"hello"⟩]⟩]

/-- A run object whose status is outside the polled set makes the loop exit
immediately, whatever the fuel. -/
theorem pollLoop_of_not_poll (retrieveRun : Nat → Except String RunObj)
    (r : RunObj) (k fuel : Nat) (h : r.status ∉ pollStatuses) :
    pollLoop retrieveRun r k fuel = some (.ok r) := by
  cases fuel <;> simp [pollLoop, h]

/-- When the poll loop exits normally, the final run object has a status
outside the polled set. -/
theorem pollLoop_ok_status (retrieveRun : Nat → Except String RunObj) :
    ∀ (fuel : Nat) (r : RunObj) (k : Nat) (rf : RunObj),
      pollLoop retrieveRun r k fuel = some (.ok rf) →
      rf.status ∉ pollStatuses := by
  intro fuel
  induction fuel with
  | zero =>
      intro r k rf h
      by_cases hs : r.status ∈ pollStatuses
      · simp [pollLoop, hs] at h
      · simp [pollLoop, hs] at h
        cases h
        exact hs
  | succ n ih =>
      intro r k rf h
      by_cases hs : r.status ∈ pollStatuses
      · simp only [pollLoop, if_pos hs] at h
        cases hr : retrieveRun k with
        | error e => rw [hr] at h; simp at h
        | ok r2 => rw [hr] at h; exact ih r2 (k + 1) rf h
      · simp [pollLoop, hs] at h
        cases h
        exact hs

/-- Shifting the observed status sequence by one step. -/
theorem statusSeqFrom_shift (r : Nat → RunObj) (r0 : RunObj) (k n : Nat) :
    statusSeqFrom r r0 k (n + 1) = statusSeqFrom r (r k) (k + 1) n := by
  cases n with
  | zero => simp [statusSeqFrom]
  | succ m =>
      simp only [statusSeqFrom]
      congr 2
      omega

/-- If the loop (with all retrieve calls succeeding) exits within some fuel,
the observed status sequence leaves the polled set at some position. -/
theorem pollLoop_some_exit (r : Nat → RunObj) :
    ∀ (fuel : Nat) (r0 : RunObj) (k : Nat) (res : Except String RunObj),
      pollLoop (fun n => .ok (r n)) r0 k fuel = some res →
      ∃ n, statusSeqFrom r r0 k n ∉ pollStatuses := by
  intro fuel
  induction fuel with
  | zero =>
      intro r0 k res h
      by_cases hs : r0.status ∈ pollStatuses
      · simp [pollLoop, hs] at h
      · exact ⟨0, hs⟩
  | succ n ih =>
      intro r0 k res h
      by_cases hs : r0.status ∈ pollStatuses
      · simp only [pollLoop, if_pos hs] at h
        obtain ⟨m, hm⟩ := ih (r k) (k + 1) res h
        refine ⟨m + 1, ?_⟩
        rw [statusSeqFrom_shift]
        exact hm
      · exact ⟨0, hs⟩

/-- If the observed status sequence leaves the polled set at position n, the
loop (with all retrieve calls succeeding) exits within fuel n. -/
theorem pollLoop_exit_some (r : Nat → RunObj) :
    ∀ (n : Nat) (r0 : RunObj) (k : Nat),
      statusSeqFrom r r0 k n ∉ pollStatuses →
      ∃ res, pollLoop (fun m => .ok (r m)) r0 k n = some res := by
  intro n
  induction n with
  | zero =>
      intro r0 k h
      exact ⟨.ok r0, pollLoop_of_not_poll _ r0 k 0 h⟩
  | succ m ih =>
      intro r0 k h
      by_cases hs : r0.status ∈ pollStatuses
      · rw [statusSeqFrom_shift] at h
        obtain ⟨res, hres⟩ := ih (r k) (k + 1) h
        refine ⟨res, ?_⟩
        simp only [pollLoop, if_pos hs]
        exact hres
      · exact ⟨.ok r0, pollLoop_of_not_poll _ r0 k (m + 1) hs⟩

/-- C7: the poll loop terminates if and only if the sequence of polled run
statuses eventually yields a status outside the set queued, in_progress; and
when the sequence stays inside that set forever, no amount of fuel makes the
loop exit: handling stalls indefinitely, there being no timeout or attempt
bound. -/
theorem C7_poll_termination (r : Nat → RunObj) (r0 : RunObj) :
    ((∃ fuel res, pollLoop (fun n => .ok (r n)) r0 0 fuel = some res) ↔
      (∃ n, statusSeqFrom r r0 0 n ∉ pollStatuses)) ∧
    ((∀ n, statusSeqFrom r r0 0 n ∈ pollStatuses) →
      ∀ fuel, pollLoop (fun n => .ok (r n)) r0 0 fuel = none) := by
  constructor
  · constructor
    · rintro ⟨fuel, res, h⟩
      exact pollLoop_some_exit r fuel r0 0 res h
    · rintro ⟨n, hn⟩
      obtain ⟨res, hres⟩ := pollLoop_exit_some r n r0 0 hn
      exact ⟨n, res, hres⟩
  · intro hall fuel
    cases hres : pollLoop (fun n => .ok (r n)) r0 0 fuel with
    | none => rfl
    | some res =>
        obtain ⟨n, hn⟩ := pollLoop_some_exit r fuel r0 0 res hres
        exact absurd (hall n) hn

/-- C4: after a successful bootstrap the registry maps the chat id to exactly
the thread id that bootstrap created; a second successful bootstrap for the
same chat id overwrites it with the new thread id, and the old thread id is
no longer retrievable there. -/
theorem C4_bootstrap_overwrites (registry : Registry) (cid : Int)
    (tid1 tid2 m1 m2 : String) (hne : tid2 ≠ tid1) :
    ((start (.ok tid1) registry cid m1).fst cid = some tid1) ∧
    ((start (.ok tid2) (start (.ok tid1) registry cid m1).fst cid m2).fst cid
        = some tid2) ∧
    ((start (.ok tid2) (start (.ok tid1) registry cid m1).fst cid m2).fst cid
        ≠ some tid1) := by
  refine ⟨by simp [start], by simp [start], ?_⟩
  simp [start]
  exact hne

/-- Witness for C4 at chat id 42 with two distinct thread ids. -/
theorem C4_bootstrap_overwrites_witness :
    (("thread_def" : String) ≠ "thread_abc") ∧
    (((start (.ok "thread_abc") (fun _ => none) 42 "Ada").fst 42
        = some "thread_abc") ∧
     ((start (.ok "thread_def")
        (start (.ok "thread_abc") (fun _ => none) 42 "Ada").fst 42 "Ada").fst 42
        = some "thread_def") ∧
     ((start (.ok "thread_def")
        (start (.ok "thread_abc") (fun _ => none) 42 "Ada").fst 42 "Ada").fst 42
        ≠ some "thread_abc")) :=
  ⟨by decide,
   C4_bootstrap_overwrites (fun _ => none) 42 "thread_abc" "thread_def"
     "Ada" "Ada" (by decide)⟩

/-- C5: when thread creation raises, the bootstrap handler sends the fixed
apology and the registry is exactly what it was before. -/
theorem C5_bootstrap_failure (registry : Registry) (cid : Int)
    (m e : String) :
    (start (.error e) registry cid m).fst = registry ∧
    (start (.error e) registry cid m).snd = .sent bootstrapApologyMsg := by
  constructor <;> rfl

/-- C1 counterexample: with an existing session and a run created already in
status cancelled, the loop performs zero retrieve calls, the handler proceeds
to message extraction and sends the extracted text while the run is still in
status cancelled — the status is treated as terminal, not re-polled. -/
theorem C1_counterexample :
    handle_message envC1 5 regC1 42 "hello" "Ada"
      = some ⟨regC1, .sent "Hi!", ⟨false, true, true, true, false, true⟩⟩ :=
  rfl

/-- C1 amended: every run status outside the polled set queued, in_progress
is treated as terminal: the loop exits on it, and on any such status other
than failed the handler proceeds to message extraction. -/
theorem C1_terminal_statuses (env : Env) (fuel : Nat) (registry : Registry)
    (chat_id : Int) (tid user_text mention : String) (r0 rf : RunObj)
    (hreg : registry chat_id = some tid)
    (hsca : env.sendChatAction = .ok ())
    (happ : env.appendMessage user_text = .ok ())
    (hrun : env.createRun = .ok r0)
    (hpoll : pollLoop env.retrieveRun r0 0 fuel = some (.ok rf)) :
    rf.status ∉ pollStatuses ∧
    (rf.status ≠ "failed" →
      ∃ res, handle_message env fuel registry chat_id user_text mention
          = some res ∧
        res.calls.listMessages = true ∧ res.registry = registry) := by
  refine ⟨pollLoop_ok_status env.retrieveRun fuel r0 0 rf hpoll, ?_⟩
  intro hfail
  simp only [handle_message, hreg, hsca, happ, hrun, hpoll]
  rw [if_neg hfail]
  cases hlist : env.listMessages with
  | error e => exact ⟨_, rfl, rfl, rfl⟩
  | ok msgs =>
      simp only []
      cases hext : extractText msgs with
      | none => exact ⟨_, rfl, rfl, rfl⟩
      | some t => exact ⟨_, rfl, rfl, rfl⟩

/-- Witness for C1 amended at the concrete cancelled-run environment. -/
theorem C1_terminal_statuses_witness :
    (RunObj.status ⟨"run_1", "cancelled", ""⟩ ∉ pollStatuses) ∧
    (RunObj.status ⟨"run_1", "cancelled", ""⟩ ≠ "failed" →
      ∃ res, handle_message envC1 5 regC1 42 "hello" "Ada" = some res ∧
        res.calls.listMessages = true ∧ res.registry = regC1) :=
  C1_terminal_statuses envC1 5 regC1 42 "thread_abc" "hello" "Ada"
    ⟨"run_1", "cancelled", ""⟩ ⟨"run_1", "cancelled", ""⟩
    rfl rfl rfl rfl rfl

/-- C2: with an existing session, when the polled status sequence reaches
completed, the reply sent to the user is the text content of the newest entry
of the message list fetched at extraction time (the list is newest first, so
the newest entry is its head). -/
theorem C2_reply_is_newest (env : Env) (fuel : Nat) (registry : Registry)
    (chat_id : Int) (tid user_text mention : String) (r0 rf : RunObj)
    (m : ThreadMsg) (rest : List ThreadMsg) (c : MsgContent)
    (cs : List MsgContent)
    (hreg : registry chat_id = some tid)
    (hsca : env.sendChatAction = .ok ())
    (happ : env.appendMessage user_text = .ok ())
    (hrun : env.createRun = .ok r0)
    (hpoll : pollLoop env.retrieveRun r0 0 fuel = some (.ok rf))
    (hdone : rf.status = "completed")
    (hlist : env.listMessages = .ok (m :: rest))
    (hcont : m.content = c :: cs) :
    ∃ res, handle_message env fuel registry chat_id user_text mention
        = some res ∧
      res.outcome = .sent c.textValue := by
  have hne : rf.status ≠ "failed" := by rw [hdone]; decide
  simp only [handle_message, hreg, hsca, happ, hrun, hpoll]
  rw [if_neg hne, hlist]
  simp only [extractText]
  rw [hcont]
  exact ⟨_, rfl, rfl⟩

/-- Witness for C2 at the spec scenario: queued, in_progress, completed, and
the thread listing the assistant reply newest first. -/
theorem C2_reply_is_newest_witness :
    ∃ res, handle_message envC2 5 regC2 42 "hello" "Ada" = some res ∧
      res.outcome = .sent (MsgContent.textValue ⟨"Hi Ada!"⟩) :=
  C2_reply_is_newest envC2 5 regC2 42 "thread_abc" "hello" "Ada"
    ⟨"run_1", "queued", ""⟩ ⟨"run_1", "completed", ""⟩
    ⟨"assistant", [⟨"Hi Ada!"⟩]⟩ [⟨"user", [⟨"hello"⟩]⟩] ⟨"Hi Ada!"⟩ []
    rfl rfl rfl rfl rfl rfl rfl rfl

/-- C3: with an existing session and the typing indicator sent, every failure
inside the try block — append raising, run creation raising, a retrieve call
raising, the run reaching status failed, message listing raising, or
extraction raising — makes the user receive exactly the fixed generic
failure message, with the registry untouched and no detail in the reply. -/
theorem C3_failures_generic (env : Env) (fuel : Nat) (registry : Registry)
    (chat_id : Int) (tid user_text mention : String)
    (hreg : registry chat_id = some tid)
    (hsca : env.sendChatAction = .ok ()) :
    (∀ e, env.appendMessage user_text = .error e →
      handle_message env fuel registry chat_id user_text mention
        = some ⟨registry, .sent genericFailureMsg,
            ⟨false, true, true, false, false, false⟩⟩) ∧
    (∀ e, env.appendMessage user_text = .ok () → env.createRun = .error e →
      handle_message env fuel registry chat_id user_text mention
        = some ⟨registry, .sent genericFailureMsg,
            ⟨false, true, true, true, false, false⟩⟩) ∧
    (∀ r0 e, env.appendMessage user_text = .ok () → env.createRun = .ok r0 →
      pollLoop env.retrieveRun r0 0 fuel = some (.error e) →
      handle_message env fuel registry chat_id user_text mention
        = some ⟨registry, .sent genericFailureMsg,
            ⟨false, true, true, true, true, false⟩⟩) ∧
    (∀ r0 rf, env.appendMessage user_text = .ok () → env.createRun = .ok r0 →
      pollLoop env.retrieveRun r0 0 fuel = some (.ok rf) →
      rf.status = "failed" →
      handle_message env fuel registry chat_id user_text mention
        = some ⟨registry, .sent genericFailureMsg,
            ⟨false, true, true, true,
              decide (r0.status ∈ pollStatuses), false⟩⟩) ∧
    (∀ r0 rf e, env.appendMessage user_text = .ok () →
      env.createRun = .ok r0 →
      pollLoop env.retrieveRun r0 0 fuel = some (.ok rf) →
      rf.status ≠ "failed" → env.listMessages = .error e →
      handle_message env fuel registry chat_id user_text mention
        = some ⟨registry, .sent genericFailureMsg,
            ⟨false, true, true, true,
              decide (r0.status ∈ pollStatuses), true⟩⟩) ∧
    (∀ r0 rf msgs, env.appendMessage user_text = .ok () →
      env.createRun = .ok r0 →
      pollLoop env.retrieveRun r0 0 fuel = some (.ok rf) →
      rf.status ≠ "failed" → env.listMessages = .ok msgs →
      extractText msgs = none →
      handle_message env fuel registry chat_id user_text mention
        = some ⟨registry, .sent genericFailureMsg,
            ⟨false, true, true, true,
              decide (r0.status ∈ pollStatuses), true⟩⟩) := by
  refine ⟨?_, ?_, ?_, ?_, ?_, ?_⟩
  · intro e happ
    simp only [handle_message, hreg, hsca, happ]
  · intro e happ hrun
    simp only [handle_message, hreg, hsca, happ, hrun]
  · intro r0 e happ hrun hpoll
    simp only [handle_message, hreg, hsca, happ, hrun, hpoll]
  · intro r0 rf happ hrun hpoll hfail
    simp only [handle_message, hreg, hsca, happ, hrun, hpoll]
    rw [if_pos hfail]
  · intro r0 rf e happ hrun hpoll hfail hlist
    simp only [handle_message, hreg, hsca, happ, hrun, hpoll]
    rw [if_neg hfail, hlist]
  · intro r0 rf msgs happ hrun hpoll hfail hlist hext
    simp only [handle_message, hreg, hsca, happ, hrun, hpoll]
    rw [if_neg hfail, hlist]
    simp only []
    rw [hext]

/-- Witness for C3: a run created already in status failed yields exactly the
fixed generic failure message. -/
theorem C3_failures_generic_witness :
    handle_message envC3 5 regC3 42 "hello" "Ada"
      = some ⟨regC3, .sent genericFailureMsg,
          ⟨false, true, true, true,
            decide (RunObj.status ⟨"run_1", "failed", "remote model error"⟩
              ∈ pollStatuses), false⟩⟩ :=
  (C3_failures_generic envC3 5 regC3 42 "thread_abc" "hello" "Ada"
      rfl rfl).2.2.2.1
    ⟨"run_1", "failed", "remote model error"⟩
    ⟨"run_1", "failed", "remote model error"⟩
    rfl rfl rfl rfl

/-- C6: for a text message whose chat id has no registry entry, the handler
auto-invokes the bootstrap handler and stops: no append, no run creation, no
retrieve, no message listing happen, and when thread creation succeeds the
reply is the greeting. -/
theorem C6_auto_bootstrap (env : Env) (fuel : Nat) (registry : Registry)
    (chat_id : Int) (user_text mention : String)
    (hmiss : registry chat_id = none) :
    ∃ res, handle_message env fuel registry chat_id user_text mention
        = some res ∧
      res.calls.appendMessage = false ∧
      res.calls.createRun = false ∧
      res.calls.retrievedRun = false ∧
      res.calls.listMessages = false ∧
      res.calls.createThread = true ∧
      (∀ tid, env.createThread = .ok tid →
        res.outcome = .sent (greetingMsg mention)) := by
  simp only [handle_message, hmiss]
  cases hct : env.createThread with
  | ok t =>
      simp only [start]
      refine ⟨_, rfl, rfl, rfl, rfl, rfl, rfl, ?_⟩
      intro tid _
      rfl
  | error e =>
      simp only [start]
      refine ⟨_, rfl, rfl, rfl, rfl, rfl, rfl, ?_⟩
      intro tid htid
      simp at htid

/-- Witness for C6 at chat id 7 with an empty registry and a successful
thread creation. -/
theorem C6_auto_bootstrap_witness :
    ∃ res, handle_message envC6 5 (fun _ => none) 7 "hello" "Ada"
        = some res ∧
      res.calls.appendMessage = false ∧
      res.calls.createRun = false ∧
      res.calls.retrievedRun = false ∧
      res.calls.listMessages = false ∧
      res.calls.createThread = true ∧
      (∀ tid, envC6.createThread = .ok tid →
        res.outcome = .sent (greetingMsg "Ada")) :=
  C6_auto_bootstrap envC6 5 (fun _ => none) 7 "hello" "Ada" rfl

/-- C8 counterexample: two startups missing different configuration values
produce the identical error report, so the report does not state which values
are missing; it is the same fixed pair of strings in both cases. -/
theorem C8_counterexample :
    startupCheck none (some "sk-key") (some "asst-id")
      = startupCheck (some "tg-token") none (some "asst-id") ∧
    startupCheck none (some "sk-key") (some "asst-id")
      = .error configErrorReport := by
  constructor <;> rfl

/-- C8 amended: when any of the three configuration values fails Python
truthiness the process refuses to start with the fixed error report naming
all three variables, and when all are present it starts. -/
theorem C8_fixed_report (tt ky aid : Option String) :
    ((truthy tt && truthy ky && truthy aid) = false →
      startupCheck tt ky aid = .error configErrorReport) ∧
    ((truthy tt && truthy ky && truthy aid) = true →
      startupCheck tt ky aid = .ok ()) := by
  constructor <;> intro h <;> simp [startupCheck, h]

/-- Witness for C8 amended: with the platform token and the API key both
missing, startup refuses with the fixed report. -/
theorem C8_fixed_report_witness :
    ((truthy none && truthy none && truthy (some "asst-id")) = false ∧
      startupCheck none none (some "asst-id") = .error configErrorReport) ∧
    ((truthy (some "t") && truthy (some "k") && truthy (some "a")) = true ∧
      startupCheck (some "t") (some "k") (some "a") = .ok ()) :=
  ⟨⟨by decide, (C8_fixed_report none none (some "asst-id")).1 (by decide)⟩,
   ⟨by decide,
    (C8_fixed_report (some "t") (some "k") (some "a")).2 (by decide)⟩⟩

/-- C9 counterexample: with an existing session, when sending the typing
indicator raises, the exception escapes the handler — the user receives
neither an assistant reply nor the fixed failure message, and no relay step
runs; the indicator is not best-effort. -/
theorem C9_counterexample :
    handle_message envC9 5 regC9 42 "hello" "Ada"
      = some ⟨regC9, .escaped "boom",
          ⟨false, true, false, false, false, false⟩⟩ :=
  rfl

/-- C9 amended: the typing indicator is sent outside the try block, so when
it raises the exception escapes the handler: no reply of any kind is sent,
no relay step runs, and the registry is untouched. -/
theorem C9_indicator_fatal (env : Env) (fuel : Nat) (registry : Registry)
    (chat_id : Int) (tid user_text mention e : String)
    (hreg : registry chat_id = some tid)
    (hsca : env.sendChatAction = .error e) :
    handle_message env fuel registry chat_id user_text mention
      = some ⟨registry, .escaped e,
          ⟨false, true, false, false, false, false⟩⟩ := by
  simp only [handle_message, hreg, hsca]
  rfl

/-- Witness for C9 amended at the concrete raising-indicator environment. -/
theorem C9_indicator_fatal_witness :
    handle_message envC9 5 regC9 42 "hello" "Ada"
      = some ⟨regC9, .escaped "boom",
          ⟨false, true, false, false, false, false⟩⟩ :=
  C9_indicator_fatal envC9 5 regC9 42 "thread_abc" "hello" "Ada" "boom"
    rfl rfl

/-- C10: when the chat id already has a registry entry, the handler leaves
the whole registry exactly as it was — every entry, for this chat id and all
others — on the success path and on every failure path. -/
theorem C10_registry_frame (env : Env) (fuel : Nat) (registry : Registry)
    (chat_id : Int) (tid user_text mention : String) (res : HandlerResult)
    (hreg : registry chat_id = some tid)
    (hres : handle_message env fuel registry chat_id user_text mention
      = some res) :
    res.registry = registry := by
  simp only [handle_message, hreg] at hres
  repeat' split at hres
  all_goals
    first
      | exact Option.noConfusion hres
      | (injection hres with h; rw [← h])

/-- Witness for C10: a full success run leaves the registry untouched. -/
theorem C10_registry_frame_witness :
    regC10 42 = some "thread_abc" ∧
    handle_message envC10 5 regC10 42 "hello" "Ada"
      = some ⟨regC10, .sent "Hi Ada!",
          ⟨false, true, true, true, false, true⟩⟩ ∧
    HandlerResult.registry
        ⟨regC10, .sent "Hi Ada!", ⟨false, true, true, true, false, true⟩⟩
      = regC10 :=
  ⟨rfl, rfl,
   C10_registry_frame envC10 5 regC10 42 "thread_abc" "hello" "Ada"
     ⟨regC10, .sent "Hi Ada!", ⟨false, true, true, true, false, true⟩⟩
     rfl rfl⟩

end Spartaco
